import Mathlib

/-!
Shallow embedding of the OAuth-configuration resolution slice of the
service-provider-integration-operator and of the `Github.LookupToken`
stub in `pkg/serviceprovider/github.go`.

The repository excerpt contains the unit tests of the OAuth config
resolution (`oauth/oauth_config_test.go`) and the GitHub service-provider
stub, but not the implementation file of `obtainOauthConfig`,
`findOauthConfigSecret` and `initializeConfigFromSecret` themselves.
Those three functions are therefore modelled from the specification
(three-branch precedence lookup: secret present and valid, use it;
secret present and invalid, error; secret absent, fall back to the
static configuration), faithful to the behaviour pinned down by the
unit tests in `src/oauth/oauth_config_test.go`.

Kubernetes is modelled by an explicit cluster state: the list of
secrets visible to the client together with an optional error that the
list call would return.  Machine-level details (byte slices in secret
data) are modelled as strings, and Go maps as association lists with
first-match lookup.
-/

namespace SPI

/-- Key of the client id field in the data of an OAuth config secret. -/
def oauthCfgSecretFieldClientId : String := "clientId"

/-- Key of the client secret field in the data of an OAuth config secret. -/
def oauthCfgSecretFieldClientSecret : String := "clientSecret"

/-- Key of the authorization URL field in the data of an OAuth config secret. -/
def oauthCfgSecretFieldAuthUrl : String := "authUrl"

/-- Key of the token URL field in the data of an OAuth config secret. -/
def oauthCfgSecretFieldTokenUrl : String := "tokenUrl"

/-- Modelled from the spec: the label (`v1beta1.ServiceProviderTypeLabel`)
whose value selects the service-provider type an OAuth config secret
belongs to; the defining constant lives outside the excerpt. -/
def ServiceProviderTypeLabel : String := "service-provider-type"

/-- Value of `config.ServiceProviderTypeGitHub`. -/
def ServiceProviderTypeGitHub : String := "GitHub"

/-- Value of `config.ServiceProviderTypeQuay`. -/
def ServiceProviderTypeQuay : String := "Quay"

/-- Kubernetes Secret, restricted to the parts the excerpt reads:
object metadata (name, namespace, labels) and the data map. -/
structure Secret where
  Name : String
  Namespace : String
  Labels : List (String × String)
  Data : List (String × String)
deriving DecidableEq, Repr

/-- Error returned by a Kubernetes list call: a Forbidden error, a
BadRequest error, or some other server-side error. -/
inductive KubeError where
  | forbidden (msg : String)
  | badRequest (msg : String)
  | internal (msg : String)
deriving DecidableEq, Repr

/-- Counterpart of `k8serrors.IsForbidden`. -/
def KubeError.isForbidden : KubeError → Bool
  | .forbidden _ => true
  | _ => false

/-- State of the cluster as seen through the Kubernetes client used by
`commonController`: the secrets it can list, plus an optional error the
next list call returns instead of succeeding. -/
structure Cluster where
  secrets : List Secret
  listErr : Option KubeError
deriving DecidableEq, Repr

/-- Modelled from the spec: the Kubernetes list call with an
`InNamespace` option and a single `MatchingLabels` requirement, as
issued by `findOauthConfigSecret`.  On success it returns exactly the
secrets living in the requested namespace and carrying the requested
label value. -/
def listSecrets (cl : Cluster) (ns labelKey labelVal : String) :
    Except KubeError (List Secret) :=
  match cl.listErr with
  | some e => .error e
  | none => .ok (cl.secrets.filter fun s =>
      s.Namespace == ns && s.Labels.lookup labelKey == some labelVal)

/-- The endpoint part of `oauth2.Config` (`AuthStyle` is an int in Go). -/
structure Endpoint where
  AuthURL : String
  TokenURL : String
  AuthStyle : Nat
deriving DecidableEq, Repr

/-- The parts of `oauth2.Config` the excerpt reads and writes. -/
structure OAuth2Config where
  ClientID : String
  ClientSecret : String
  Endpoint : Endpoint
  RedirectURL : String
deriving DecidableEq, Repr

/-- Static service-provider configuration supplied at operator startup
(`config.ServiceProviderConfiguration`), with the fields the tests set. -/
structure ServiceProviderConfiguration where
  ClientId : String
  ClientSecret : String
  ServiceProviderType : String
  ServiceProviderBaseUrl : String
deriving DecidableEq, Repr

/-- Modelled from the spec: the OAuth state (`oauthstate.OAuthInfo`), a
short-lived per-authorization-flow value carrying the token namespace
and the service-provider type, used only to select which secret to look
up; the other per-flow fields (token name, provider URL, scopes) are
carried along but play no role in the lookup. -/
structure OAuthInfo where
  TokenName : String
  TokenNamespace : String
  ServiceProviderType : String
  ServiceProviderUrl : String
  Scopes : List String
deriving DecidableEq, Repr

/-- The `commonController`, restricted to the fields its OAuth config
resolution reads: the static configuration, the Kubernetes client
(modelled by the cluster state it sees), the default OAuth2 endpoint and
the operator base URL. -/
structure CommonController where
  Config : ServiceProviderConfiguration
  K8sClient : Cluster
  Endpoint : Endpoint
  BaseUrl : String
deriving DecidableEq, Repr

/-- Modelled from the spec: the redirect URL of the OAuth flow, derived
from the controller's base URL (the unit tests only require that the
resulting `RedirectURL` contain `BaseUrl`). -/
def redirectUrl (c : CommonController) : String :=
  c.BaseUrl ++ "/oauth/callback"

/-- Does a secret match the lookup of `findOauthConfigSecret` for the
given controller and OAuth state: it lives in the state's token
namespace and carries the service-provider-type label with the
controller's configured provider type. -/
def secretMatches (c : CommonController) (info : OAuthInfo) (s : Secret) : Bool :=
  s.Namespace == info.TokenNamespace &&
    s.Labels.lookup ServiceProviderTypeLabel == some c.Config.ServiceProviderType

/-- Modelled from the spec: `findOauthConfigSecret` lists the secrets in
the OAuth state's token namespace labelled with the controller's
service-provider type.  A Forbidden list error is swallowed (no secret,
no error); any other list error is propagated; otherwise the first
matching secret, if any, is returned.  Go signature:
`(bool, *corev1.Secret, error)`. -/
def findOauthConfigSecret (c : CommonController) (info : OAuthInfo) :
    Bool × Option Secret × Option KubeError :=
  match listSecrets c.K8sClient info.TokenNamespace
      ServiceProviderTypeLabel c.Config.ServiceProviderType with
  | .error e =>
    if e.isForbidden then (false, none, none) else (false, none, some e)
  | .ok items =>
    match items with
    | [] => (false, none, none)
    | s :: _ => (true, some s, none)

/-- Modelled from the spec: `initializeConfigFromSecret` copies client id
and client secret out of the secret data into the given `oauth2.Config`,
failing if either is missing, and overrides the endpoint auth/token URLs
only when the corresponding optional fields are present.  The mutation
of the config through its pointer is modelled by returning the updated
config next to the optional error message. -/
def initializeConfigFromSecret (secret : Secret) (oauthCfg : OAuth2Config) :
    Option String × OAuth2Config :=
  match secret.Data.lookup oauthCfgSecretFieldClientId with
  | none => (some "failed to find clientId in the oauth config secret", oauthCfg)
  | some clientId =>
    let cfg1 := { oauthCfg with ClientID := clientId }
    match secret.Data.lookup oauthCfgSecretFieldClientSecret with
    | none => (some "failed to find clientSecret in the oauth config secret", cfg1)
    | some clientSecret =>
      let cfg2 := { cfg1 with ClientSecret := clientSecret }
      let cfg3 := match secret.Data.lookup oauthCfgSecretFieldAuthUrl with
        | some authUrl =>
            { cfg2 with Endpoint := { cfg2.Endpoint with AuthURL := authUrl } }
        | none => cfg2
      let cfg4 := match secret.Data.lookup oauthCfgSecretFieldTokenUrl with
        | some tokenUrl =>
            { cfg3 with Endpoint := { cfg3.Endpoint with TokenURL := tokenUrl } }
        | none => cfg3
      (none, cfg4)

/-- Is a secret a valid OAuth config secret: its data carries both a
client id and a client secret (exactly the condition under which
`initializeConfigFromSecret` succeeds). -/
def secretValid (s : Secret) : Bool :=
  (s.Data.lookup oauthCfgSecretFieldClientId).isSome &&
    (s.Data.lookup oauthCfgSecretFieldClientSecret).isSome

/-- Error returned by `obtainOauthConfig`: either the Kubernetes error
propagated from the secret lookup or the validation error message from
`initializeConfigFromSecret`. -/
inductive ObtainError where
  | kubeError (e : KubeError)
  | secretError (msg : String)
deriving DecidableEq, Repr

/-- The `oauth2.Config` that `obtainOauthConfig` builds from the static
configuration before any secret override (its let-bound `oauthCfg`):
client id, client secret and endpoint from the controller, redirect URL
derived from the base URL. -/
def staticOauthConfig (c : CommonController) : OAuth2Config :=
  { ClientID := c.Config.ClientId
    ClientSecret := c.Config.ClientSecret
    Endpoint := c.Endpoint
    RedirectURL := redirectUrl c }

/-- Modelled from the spec: `obtainOauthConfig` starts from the static
configuration (client id, client secret, default endpoint, redirect URL),
then looks the OAuth config secret up; a lookup error is propagated, a
found secret overrides the config via `initializeConfigFromSecret`
(whose failure aborts with a nil config), and with no secret the static
config stands.  The Go `(*oauth2.Config, error)` result is modelled as
an `Except` value.  The branch in which the lookup reports found with a
nil secret pointer is unreachable. -/
def obtainOauthConfig (c : CommonController) (info : OAuthInfo) :
    Except ObtainError OAuth2Config :=
  let oauthCfg : OAuth2Config := staticOauthConfig c
  match findOauthConfigSecret c info with
  | (_, _, some findErr) => .error (.kubeError findErr)
  | (true, some s, none) =>
    match initializeConfigFromSecret s oauthCfg with
    | (none, cfg) => .ok cfg
    | (some msg, _) => .error (.secretError msg)
  | (true, none, none) => .error (.secretError "nil oauth config secret")
  | (false, _, none) => .ok oauthCfg

/-- State-passing view of `findOauthConfigSecret`: the Go method has a
pointer receiver, so the receiver is threaded as explicit state; the
body performs no store through the receiver, hence the final controller
is the initial one. -/
def findOauthConfigSecretRun (c : CommonController) (info : OAuthInfo) :
    (Bool × Option Secret × Option KubeError) × CommonController :=
  (findOauthConfigSecret c info, c)

/-- State-passing view of `obtainOauthConfig`: the receiver is threaded
as explicit state and no store through it occurs in the body. -/
def obtainOauthConfigRun (c : CommonController) (info : OAuthInfo) :
    Except ObtainError OAuth2Config × CommonController :=
  (obtainOauthConfig c info, c)

/-- SPIAccessToken custom resource, restricted to its identity; the stub
never reads any of its fields. -/
structure SPIAccessToken where
  Name : String
  Namespace : String
deriving DecidableEq, Repr

/-- SPIAccessTokenBinding custom resource: the argument of
`Github.LookupToken`; the stub never reads any of its fields. -/
structure SPIAccessTokenBinding where
  Name : String
  Namespace : String
  RepoUrl : String
deriving DecidableEq, Repr

/-- State of the cluster as seen through the client of the `Github`
service provider: the SPIAccessTokens it can list, plus an optional
error the next list call returns instead of succeeding. -/
structure TokenCluster where
  tokens : List SPIAccessToken
  listErr : Option KubeError
deriving DecidableEq, Repr

/-- The Kubernetes list call with `client.Limit(1)` issued by
`Github.LookupToken`: on success it returns at most the first token. -/
def listTokensLimit1 (cl : TokenCluster) :
    Except KubeError (List SPIAccessToken) :=
  match cl.listErr with
  | some e => .error e
  | none => .ok (cl.tokens.take 1)

/-- The `Github` service provider of `pkg/serviceprovider/github.go`,
holding the Kubernetes client it lists tokens through. -/
structure Github where
  Client : TokenCluster
deriving DecidableEq, Repr

/-- Embedding of `Github.LookupToken`: list SPIAccessTokens with a limit
of one; propagate the list error; with an empty list return nil token
and nil error; otherwise return the first listed token.  The binding
argument is accepted and ignored, exactly as in the source. -/
def Github.LookupToken (g : Github) (binding : SPIAccessTokenBinding) :
    Except KubeError (Option SPIAccessToken) :=
  match listTokensLimit1 g.Client with
  | .error e => .error e
  | .ok ats =>
    match ats with
    | [] => .ok none
    | t :: _ => .ok (some t)

/-! Concrete example inputs, mirroring the fixtures of the unit tests in
`src/oauth/oauth_config_test.go`; they serve as evaluation points for
the theorems below. -/

/-- Default OAuth2 endpoint of the example controller. -/
def exEndpoint : Endpoint :=
  { AuthURL := "https://github.com/login/oauth/authorize"
    TokenURL := "https://github.com/login/oauth/access_token"
    AuthStyle := 0 }

/-- Static configuration of the example controller. -/
def exConfig : ServiceProviderConfiguration :=
  { ClientId := "static-client-id"
    ClientSecret := "static-client-secret"
    ServiceProviderType := ServiceProviderTypeGitHub
    ServiceProviderBaseUrl := "http://bleh.eh" }

/-- Example controller over a given cluster state. -/
def exCtrl (cl : Cluster) : CommonController :=
  { Config := exConfig, K8sClient := cl, Endpoint := exEndpoint, BaseUrl := "baseurl" }

/-- Example OAuth state pointing at the test namespace. -/
def exInfo : OAuthInfo :=
  { TokenName := "token-a"
    TokenNamespace := "test-secretConfigNamespace"
    ServiceProviderType := ServiceProviderTypeGitHub
    ServiceProviderUrl := "https://github.com"
    Scopes := [] }

/-- Example OAuth state agreeing with `exInfo` on token namespace and
provider type but differing in every other field. -/
def exInfoOther : OAuthInfo :=
  { TokenName := "token-b"
    TokenNamespace := "test-secretConfigNamespace"
    ServiceProviderType := ServiceProviderTypeGitHub
    ServiceProviderUrl := "https://github.com/other"
    Scopes := ["repo"] }

/-- Valid example OAuth config secret: client id and client secret
present, no URL overrides. -/
def exValidSecret : Secret :=
  { Name := "oauth-config-secret"
    Namespace := "test-secretConfigNamespace"
    Labels := [(ServiceProviderTypeLabel, ServiceProviderTypeGitHub)]
    Data := [(oauthCfgSecretFieldClientId, "testclientid"),
             (oauthCfgSecretFieldClientSecret, "testclientsecret")] }

/-- Invalid example OAuth config secret: client id present, client
secret missing. -/
def exInvalidSecret : Secret :=
  { Name := "oauth-config-secret"
    Namespace := "test-secretConfigNamespace"
    Labels := [(ServiceProviderTypeLabel, ServiceProviderTypeGitHub)]
    Data := [(oauthCfgSecretFieldClientId, "testclientid")] }

/-- Example secret labelled for a different service provider. -/
def exQuaySecret : Secret :=
  { Name := "oauth-config-secret"
    Namespace := "test-secretConfigNamespace"
    Labels := [(ServiceProviderTypeLabel, ServiceProviderTypeQuay)]
    Data := [] }

/-- Example all-empty OAuth2 config (the zero value `oauth2.Config{}`). -/
def exEmptyCfg : OAuth2Config :=
  { ClientID := "", ClientSecret := ""
    Endpoint := { AuthURL := "", TokenURL := "", AuthStyle := 0 }
    RedirectURL := "" }

/-! Helper lemmas, shared by several of the theorems below. -/

/-- When the secret data carries both client fields,
`initializeConfigFromSecret` succeeds, copies them into the config and
does not touch anything else but the endpoint URLs. -/
theorem initializeConfigFromSecret_ok (s : Secret) (cfg : OAuth2Config)
    (a b : String)
    (ha : s.Data.lookup oauthCfgSecretFieldClientId = some a)
    (hb : s.Data.lookup oauthCfgSecretFieldClientSecret = some b) :
    (initializeConfigFromSecret s cfg).1 = none ∧
    (initializeConfigFromSecret s cfg).2.ClientID = a ∧
    (initializeConfigFromSecret s cfg).2.ClientSecret = b := by
  simp only [initializeConfigFromSecret, ha, hb]
  cases hau : s.Data.lookup oauthCfgSecretFieldAuthUrl <;>
    cases htu : s.Data.lookup oauthCfgSecretFieldTokenUrl <;> simp

/-- When a client field is missing from the secret data,
`initializeConfigFromSecret` fails. -/
theorem initializeConfigFromSecret_err (s : Secret) (cfg : OAuth2Config)
    (h : s.Data.lookup oauthCfgSecretFieldClientId = none ∨
         s.Data.lookup oauthCfgSecretFieldClientSecret = none) :
    ∃ msg, (initializeConfigFromSecret s cfg).1 = some msg := by
  rcases h with h | h
  · exact ⟨"failed to find clientId in the oauth config secret",
      by simp [initializeConfigFromSecret, h]⟩
  · cases hid : s.Data.lookup oauthCfgSecretFieldClientId with
    | none => exact ⟨"failed to find clientId in the oauth config secret",
        by simp [initializeConfigFromSecret, hid]⟩
    | some a => exact ⟨"failed to find clientSecret in the oauth config secret",
        by simp [initializeConfigFromSecret, hid, h]⟩

/-- Both client fields present and both URL fields absent: the secret is
copied into the config, the endpoint untouched. -/
theorem initializeConfigFromSecret_noUrls (s : Secret) (cfg : OAuth2Config)
    (a b : String)
    (ha : s.Data.lookup oauthCfgSecretFieldClientId = some a)
    (hb : s.Data.lookup oauthCfgSecretFieldClientSecret = some b)
    (hau : s.Data.lookup oauthCfgSecretFieldAuthUrl = none)
    (htu : s.Data.lookup oauthCfgSecretFieldTokenUrl = none) :
    initializeConfigFromSecret s cfg =
      (none, { cfg with ClientID := a, ClientSecret := b }) := by
  simp [initializeConfigFromSecret, ha, hb, hau, htu]

/-- Unfolding of `obtainOauthConfig` on the found-secret branch. -/
theorem obtainOauthConfig_found (c : CommonController) (info : OAuthInfo)
    (s : Secret)
    (hfind : findOauthConfigSecret c info = (true, some s, none)) :
    obtainOauthConfig c info =
      (match initializeConfigFromSecret s (staticOauthConfig c) with
       | (none, cfg) => .ok cfg
       | (some msg, _) => .error (.secretError msg)) := by
  unfold obtainOauthConfig
  rw [hfind]

/-- Unfolding of `obtainOauthConfig` on the no-secret branch. -/
theorem obtainOauthConfig_not_found (c : CommonController) (info : OAuthInfo)
    (hfind : findOauthConfigSecret c info = (false, none, none)) :
    obtainOauthConfig c info = .ok (staticOauthConfig c) := by
  unfold obtainOauthConfig
  rw [hfind]

/-- Unfolding of `obtainOauthConfig` on the lookup-error branch. -/
theorem obtainOauthConfig_find_err (c : CommonController) (info : OAuthInfo)
    (found : Bool) (s : Option Secret) (e : KubeError)
    (hfind : findOauthConfigSecret c info = (found, s, some e)) :
    obtainOauthConfig c info = .error (.kubeError e) := by
  unfold obtainOauthConfig
  rw [hfind]
  cases found <;> cases s <;> rfl

/-- C4: for every cluster state and every controller/OAuth-state pair,
`findOauthConfigSecret` returns at most one matching secret: the result
is either found=false with a nil secret or found=true with exactly one
secret, never more. -/
theorem findOauthConfigSecret_at_most_one (c : CommonController) (info : OAuthInfo) :
    ((findOauthConfigSecret c info).1 = false ∧
     (findOauthConfigSecret c info).2.1 = none) ∨
    ((findOauthConfigSecret c info).1 = true ∧
     ∃ s, (findOauthConfigSecret c info).2.1 = some s) := by
  unfold findOauthConfigSecret
  cases h : listSecrets c.K8sClient info.TokenNamespace
      ServiceProviderTypeLabel c.Config.ServiceProviderType with
  | error e => cases he : e.isForbidden <;> simp [he]
  | ok items => cases items <;> simp

/-- C1: `obtainOauthConfig` follows a three-branch precedence: a found
valid secret supplies client id and client secret of the returned
config; a found invalid secret makes the call return an error and no
config; no secret makes the returned config fall back to the
controller's static configuration (its ClientId and ClientSecret). -/
theorem obtainOauthConfig_precedence (c : CommonController) (info : OAuthInfo) :
    (∀ s, findOauthConfigSecret c info = (true, some s, none) →
      secretValid s = true →
      ∃ cfg, obtainOauthConfig c info = .ok cfg ∧
        s.Data.lookup oauthCfgSecretFieldClientId = some cfg.ClientID ∧
        s.Data.lookup oauthCfgSecretFieldClientSecret = some cfg.ClientSecret) ∧
    (∀ s, findOauthConfigSecret c info = (true, some s, none) →
      secretValid s = false →
      ∃ e, obtainOauthConfig c info = .error e) ∧
    (findOauthConfigSecret c info = (false, none, none) →
      obtainOauthConfig c info = .ok (staticOauthConfig c)) := by
  refine ⟨?_, ?_, ?_⟩
  · intro s hfind hval
    unfold secretValid at hval
    rw [Bool.and_eq_true, Option.isSome_iff_exists, Option.isSome_iff_exists] at hval
    obtain ⟨⟨a, ha⟩, ⟨b, hb⟩⟩ := hval
    have hinit := initializeConfigFromSecret_ok s (staticOauthConfig c) a b ha hb
    have heq : initializeConfigFromSecret s (staticOauthConfig c) =
        (none, (initializeConfigFromSecret s (staticOauthConfig c)).2) := by
      rw [← hinit.1]
    refine ⟨(initializeConfigFromSecret s (staticOauthConfig c)).2, ?_, ?_, ?_⟩
    · rw [obtainOauthConfig_found c info s hfind, heq]
    · rw [ha, hinit.2.1]
    · rw [hb, hinit.2.2]
  · intro s hfind hval
    have herr : s.Data.lookup oauthCfgSecretFieldClientId = none ∨
        s.Data.lookup oauthCfgSecretFieldClientSecret = none := by
      cases hid : s.Data.lookup oauthCfgSecretFieldClientId with
      | none => exact Or.inl rfl
      | some a =>
        cases hsec : s.Data.lookup oauthCfgSecretFieldClientSecret with
        | none => exact Or.inr rfl
        | some b => exact absurd hval (by simp [secretValid, hid, hsec])
    obtain ⟨msg, hmsg⟩ := initializeConfigFromSecret_err s (staticOauthConfig c) herr
    have hpe : initializeConfigFromSecret s (staticOauthConfig c) =
        (some msg, (initializeConfigFromSecret s (staticOauthConfig c)).2) := by
      rw [← hmsg]
    exact ⟨.secretError msg, by rw [obtainOauthConfig_found c info s hfind, hpe]⟩
  · exact obtainOauthConfig_not_found c info

/-- Witness for C1 at three concrete clusters, one per branch: a valid
matching secret overrides the client credentials, an invalid matching
secret aborts with an error, an empty cluster falls back to the static
configuration. -/
theorem obtainOauthConfig_precedence_witness :
    (∃ cfg, obtainOauthConfig (exCtrl ⟨[exValidSecret], none⟩) exInfo = .ok cfg ∧
      exValidSecret.Data.lookup oauthCfgSecretFieldClientId = some cfg.ClientID ∧
      exValidSecret.Data.lookup oauthCfgSecretFieldClientSecret =
        some cfg.ClientSecret) ∧
    (∃ e, obtainOauthConfig (exCtrl ⟨[exInvalidSecret], none⟩) exInfo = .error e) ∧
    obtainOauthConfig (exCtrl ⟨[], none⟩) exInfo =
      .ok (staticOauthConfig (exCtrl ⟨[], none⟩)) :=
  ⟨(obtainOauthConfig_precedence (exCtrl ⟨[exValidSecret], none⟩) exInfo).1
      exValidSecret (by decide) (by decide),
   (obtainOauthConfig_precedence (exCtrl ⟨[exInvalidSecret], none⟩) exInfo).2.1
      exInvalidSecret (by decide) (by decide),
   (obtainOauthConfig_precedence (exCtrl ⟨[], none⟩) exInfo).2.2 (by decide)⟩

/-- C2: a secret carrying a client id without a client secret, or a
client secret without a client id, makes `initializeConfigFromSecret`
fail, and `obtainOauthConfig` return a nil config and an error instead
of silently falling back to the static configuration. -/
theorem missing_client_field_fails (s : Secret)
    (h : (s.Data.lookup oauthCfgSecretFieldClientId = none ∧
          (s.Data.lookup oauthCfgSecretFieldClientSecret).isSome = true) ∨
         (s.Data.lookup oauthCfgSecretFieldClientSecret = none ∧
          (s.Data.lookup oauthCfgSecretFieldClientId).isSome = true)) :
    (∀ cfg, ∃ msg, (initializeConfigFromSecret s cfg).1 = some msg) ∧
    (∀ c info, findOauthConfigSecret c info = (true, some s, none) →
      ∃ e, obtainOauthConfig c info = .error e) := by
  have herr : ∀ cfg : OAuth2Config,
      ∃ msg, (initializeConfigFromSecret s cfg).1 = some msg := by
    intro cfg
    apply initializeConfigFromSecret_err
    rcases h with ⟨h1, _⟩ | ⟨h1, _⟩
    · exact Or.inl h1
    · exact Or.inr h1
  refine ⟨herr, ?_⟩
  intro c info hfind
  obtain ⟨msg, hmsg⟩ := herr (staticOauthConfig c)
  have hpe : initializeConfigFromSecret s (staticOauthConfig c) =
      (some msg, (initializeConfigFromSecret s (staticOauthConfig c)).2) := by
    rw [← hmsg]
  exact ⟨.secretError msg, by rw [obtainOauthConfig_found c info s hfind, hpe]⟩

/-- Witness for C2 at the secret holding only a client id. -/
theorem missing_client_field_fails_witness :
    (∃ msg, (initializeConfigFromSecret exInvalidSecret exEmptyCfg).1 = some msg) ∧
    (∃ e, obtainOauthConfig (exCtrl ⟨[exInvalidSecret], none⟩) exInfo = .error e) :=
  ⟨(missing_client_field_fails exInvalidSecret (by decide)).1 exEmptyCfg,
   (missing_client_field_fails exInvalidSecret (by decide)).2
      (exCtrl ⟨[exInvalidSecret], none⟩) exInfo (by decide)⟩

/-- C9: the URL fields of the OAuth config secret are optional: with
both client fields present and neither URL field,
`initializeConfigFromSecret` succeeds and does not touch the endpoint of
the config it fills, and `obtainOauthConfig` keeps the controller's
default endpoint. -/
theorem optional_url_fields (s : Secret) (a b : String)
    (ha : s.Data.lookup oauthCfgSecretFieldClientId = some a)
    (hb : s.Data.lookup oauthCfgSecretFieldClientSecret = some b)
    (hau : s.Data.lookup oauthCfgSecretFieldAuthUrl = none)
    (htu : s.Data.lookup oauthCfgSecretFieldTokenUrl = none) :
    (∀ cfg, (initializeConfigFromSecret s cfg).1 = none ∧
      (initializeConfigFromSecret s cfg).2.Endpoint = cfg.Endpoint) ∧
    (∀ c info, findOauthConfigSecret c info = (true, some s, none) →
      ∃ cfg, obtainOauthConfig c info = .ok cfg ∧ cfg.Endpoint = c.Endpoint) := by
  have hin := fun cfg => initializeConfigFromSecret_noUrls s cfg a b ha hb hau htu
  constructor
  · intro cfg
    rw [hin cfg]
    exact ⟨rfl, rfl⟩
  · intro c info hfind
    refine ⟨{ staticOauthConfig c with ClientID := a, ClientSecret := b }, ?_, rfl⟩
    rw [obtainOauthConfig_found c info s hfind, hin (staticOauthConfig c)]

/-- Witness for C9: the valid example secret has no URL fields; filling
the all-empty config leaves both endpoint URLs empty, and resolution
keeps the controller's GitHub endpoint. -/
theorem optional_url_fields_witness :
    ((initializeConfigFromSecret exValidSecret exEmptyCfg).1 = none ∧
     (initializeConfigFromSecret exValidSecret exEmptyCfg).2.Endpoint =
       exEmptyCfg.Endpoint) ∧
    (∃ cfg, obtainOauthConfig (exCtrl ⟨[exValidSecret], none⟩) exInfo = .ok cfg ∧
      cfg.Endpoint = (exCtrl ⟨[exValidSecret], none⟩).Endpoint) :=
  ⟨(optional_url_fields exValidSecret "testclientid" "testclientsecret"
      (by decide) (by decide) (by decide) (by decide)).1 exEmptyCfg,
   (optional_url_fields exValidSecret "testclientid" "testclientsecret"
      (by decide) (by decide) (by decide) (by decide)).2
      (exCtrl ⟨[exValidSecret], none⟩) exInfo (by decide)⟩

/-- C3: a secret is reported by `findOauthConfigSecret` only when it is
in the cluster, lives in the OAuth state's token namespace and carries
the service-provider-type label with the controller's configured
provider type; when every secret fails that match (wrong provider type
or wrong namespace), the result is found=false, nil secret, no error. -/
theorem findOauthConfigSecret_match_only (c : CommonController) (info : OAuthInfo)
    (hok : c.K8sClient.listErr = none) :
    (∀ s, findOauthConfigSecret c info = (true, some s, none) →
      s ∈ c.K8sClient.secrets ∧ secretMatches c info s = true) ∧
    ((∀ s ∈ c.K8sClient.secrets, secretMatches c info s = false) →
      findOauthConfigSecret c info = (false, none, none)) := by
  have hls : listSecrets c.K8sClient info.TokenNamespace ServiceProviderTypeLabel
      c.Config.ServiceProviderType =
      .ok (c.K8sClient.secrets.filter (secretMatches c info)) := by
    unfold listSecrets
    rw [hok]
    rfl
  constructor
  · intro s h
    unfold findOauthConfigSecret at h
    rw [hls] at h
    cases hf : c.K8sClient.secrets.filter (secretMatches c info) with
    | nil => rw [hf] at h; exact absurd h (by simp)
    | cons a l =>
      rw [hf] at h
      have hsa : a = s := by
        have h' := h
        simp only [Prod.mk.injEq] at h'
        exact Option.some.inj h'.2.1
      subst hsa
      have hmem : a ∈ c.K8sClient.secrets.filter (secretMatches c info) := by
        rw [hf]; exact List.mem_cons_self _ _
      exact List.mem_filter.mp hmem
  · intro hall
    unfold findOauthConfigSecret
    rw [hls]
    have hnil : c.K8sClient.secrets.filter (secretMatches c info) = [] := by
      apply List.filter_eq_nil_iff.mpr
      intro a ha
      simp [hall a ha]
    rw [hnil]

/-- Witness for C3: a matching GitHub-labelled secret is reported with
its label and namespace verified; a cluster holding only a
Quay-labelled secret yields found=false, nil, no error. -/
theorem findOauthConfigSecret_match_only_witness :
    (exValidSecret ∈ (exCtrl ⟨[exValidSecret], none⟩).K8sClient.secrets ∧
      secretMatches (exCtrl ⟨[exValidSecret], none⟩) exInfo exValidSecret = true) ∧
    findOauthConfigSecret (exCtrl ⟨[exQuaySecret], none⟩) exInfo = (false, none, none) :=
  ⟨(findOauthConfigSecret_match_only (exCtrl ⟨[exValidSecret], none⟩) exInfo rfl).1
      exValidSecret (by decide),
   (findOauthConfigSecret_match_only (exCtrl ⟨[exQuaySecret], none⟩) exInfo rfl).2
      (by decide)⟩

/-- C5: a Forbidden list error is swallowed by `findOauthConfigSecret`
(found=false, nil secret, nil error) and `obtainOauthConfig` falls back
to the static configuration as if no secret existed; every other list
error is propagated and `obtainOauthConfig` returns a nil config and
the error. -/
theorem findOauthConfigSecret_list_errors (c : CommonController) (info : OAuthInfo)
    (e : KubeError) (h : c.K8sClient.listErr = some e) :
    (e.isForbidden = true →
      findOauthConfigSecret c info = (false, none, none) ∧
      obtainOauthConfig c info = .ok (staticOauthConfig c)) ∧
    (e.isForbidden = false →
      findOauthConfigSecret c info = (false, none, some e) ∧
      obtainOauthConfig c info = .error (.kubeError e)) := by
  have hls : listSecrets c.K8sClient info.TokenNamespace ServiceProviderTypeLabel
      c.Config.ServiceProviderType = .error e := by
    unfold listSecrets
    rw [h]
  constructor
  · intro hfb
    have hfind : findOauthConfigSecret c info = (false, none, none) := by
      unfold findOauthConfigSecret
      rw [hls]
      simp [hfb]
    exact ⟨hfind, obtainOauthConfig_not_found c info hfind⟩
  · intro hfb
    have hfind : findOauthConfigSecret c info = (false, none, some e) := by
      unfold findOauthConfigSecret
      rw [hls]
      simp [hfb]
    exact ⟨hfind, obtainOauthConfig_find_err c info false none e hfind⟩

/-- Witness for C5: a forbidden list error yields the static fallback; a
BadRequest list error is propagated out of both functions. -/
theorem findOauthConfigSecret_list_errors_witness :
    (findOauthConfigSecret (exCtrl ⟨[], some (.forbidden "no perms")⟩) exInfo =
        (false, none, none) ∧
      obtainOauthConfig (exCtrl ⟨[], some (.forbidden "no perms")⟩) exInfo =
        .ok (staticOauthConfig (exCtrl ⟨[], some (.forbidden "no perms")⟩))) ∧
    (findOauthConfigSecret (exCtrl ⟨[], some (.badRequest "nenenene")⟩) exInfo =
        (false, none, some (.badRequest "nenenene")) ∧
      obtainOauthConfig (exCtrl ⟨[], some (.badRequest "nenenene")⟩) exInfo =
        .error (.kubeError (.badRequest "nenenene"))) :=
  ⟨(findOauthConfigSecret_list_errors (exCtrl ⟨[], some (.forbidden "no perms")⟩)
      exInfo (.forbidden "no perms") rfl).1 rfl,
   (findOauthConfigSecret_list_errors (exCtrl ⟨[], some (.badRequest "nenenene")⟩)
      exInfo (.badRequest "nenenene") rfl).2 rfl⟩

/-- C6: the OAuth state influences `obtainOauthConfig` only through the
secret selection: two states agreeing on token namespace and
service-provider type produce identical results against the same
controller and cluster. -/
theorem obtainOauthConfig_state_noninterference (c : CommonController)
    (i1 i2 : OAuthInfo)
    (hns : i1.TokenNamespace = i2.TokenNamespace)
    (hsp : i1.ServiceProviderType = i2.ServiceProviderType) :
    obtainOauthConfig c i1 = obtainOauthConfig c i2 := by
  unfold obtainOauthConfig findOauthConfigSecret
  rw [hns]

/-- Witness for C6: two OAuth states differing in token name, provider
URL and scopes, but agreeing on namespace and provider type, resolve to
the same config. -/
theorem obtainOauthConfig_state_noninterference_witness :
    obtainOauthConfig (exCtrl ⟨[exValidSecret], none⟩) exInfo =
      obtainOauthConfig (exCtrl ⟨[exValidSecret], none⟩) exInfoOther :=
  obtainOauthConfig_state_noninterference (exCtrl ⟨[exValidSecret], none⟩)
    exInfo exInfoOther rfl rfl

/-- C7: the static service-provider configuration is never modified:
threading the controller (the pointer receiver of the Go methods) as
explicit state through `findOauthConfigSecret` and `obtainOauthConfig`
returns it unchanged, so every field of its
`ServiceProviderConfiguration` is preserved
(`initializeConfigFromSecret` does not even receive the controller). -/
theorem controller_config_immutable (c : CommonController) (info : OAuthInfo) :
    (findOauthConfigSecretRun c info).2.Config = c.Config ∧
    (obtainOauthConfigRun c info).2.Config = c.Config :=
  ⟨rfl, rfl⟩

/-- C8: `Github.LookupToken` is a placeholder: it lists SPIAccessTokens
with a limit of one and returns the first listed token (or the list
error), and its result does not depend on the binding it is given. -/
theorem lookupToken_placeholder (g : Github) (b : SPIAccessTokenBinding) :
    Github.LookupToken g b =
      (match g.Client.listErr with
       | some e => .error e
       | none => .ok g.Client.tokens.head?) ∧
    ∀ b2, Github.LookupToken g b = Github.LookupToken g b2 := by
  constructor
  · unfold Github.LookupToken listTokensLimit1
    cases g.Client.listErr with
    | some e => rfl
    | none => cases g.Client.tokens <;> rfl
  · intro b2
    rfl

/-- C10: with no SPIAccessTokens in the cluster and a successful list
call, `Github.LookupToken` returns a nil token and a nil error. -/
theorem lookupToken_empty_cluster (g : Github) (b : SPIAccessTokenBinding)
    (h1 : g.Client.tokens = []) (h2 : g.Client.listErr = none) :
    Github.LookupToken g b = .ok none := by
  unfold Github.LookupToken listTokensLimit1
  rw [h1, h2]
  rfl

/-- Witness for C10 at a concrete empty cluster. -/
theorem lookupToken_empty_cluster_witness :
    Github.LookupToken ⟨⟨[], none⟩⟩ ⟨"b", "ns", "https://github.com/o/r"⟩ = .ok none :=
  lookupToken_empty_cluster ⟨⟨[], none⟩⟩ ⟨"b", "ns", "https://github.com/o/r"⟩ rfl rfl

end SPI
